import Mathlib

/-!
Verification of the notification-app scheduling core against its specification.

The Python source is shallowly embedded: Python strings are Lean `String`s,
Python string operations (`strip`, `lower`, `split`, slicing, `int(...)`,
list indexing with negative indices) are modelled explicitly at the
character-list level, dict lookups with defaults become `Option.getD`,
and exception-raising code returns `Except`/`Option`.
-/

deriving instance DecidableEq for Except

namespace NotificationApp

/-! ## Python string primitives -/

/-- Whitespace test used by Python `str.strip` / `str.split` (ASCII fragment). -/
def isWs (c : Char) : Bool := c.isWhitespace

/-- Split a character list at separators satisfying `p`, dropping empty pieces
(the semantics of Python `str.split()` with no argument). `acc` holds the
current token reversed. -/
def splitPAux (p : Char → Bool) : List Char → List Char → List (List Char)
  | [], acc => if acc.isEmpty then [] else [acc.reverse]
  | c :: cs, acc =>
    if p c then
      if acc.isEmpty then splitPAux p cs [] else acc.reverse :: splitPAux p cs []
    else splitPAux p cs (c :: acc)

/-- Python `s.split()` (whitespace, empty pieces dropped). -/
def pysplit (s : String) : List String :=
  (splitPAux isWs s.data []).map String.mk

/-- Python `s.strip()`. -/
def pystrip (s : String) : String :=
  String.mk (((s.data.dropWhile isWs).reverse.dropWhile isWs).reverse)

/-- Python `s.lower()` (ASCII fragment). -/
def pylower (s : String) : String := String.mk (s.data.map Char.toLower)

/-- Decimal value of a digit string (no sign). -/
def digitsToNat (cs : List Char) : Nat :=
  cs.foldl (fun a c => a * 10 + (c.toNat - 48)) 0

/-- Python `int(s)`: optional surrounding whitespace, optional sign, decimal digits. -/
def pyInt (s : String) : Option Int :=
  match (pystrip s).data with
  | [] => none
  | c :: ds =>
    if c = '-' then
      if ds ≠ [] ∧ ds.all Char.isDigit then some (-(digitsToNat ds : Int)) else none
    else if c = '+' then
      if ds ≠ [] ∧ ds.all Char.isDigit then some ((digitsToNat ds : Int)) else none
    else if (c :: ds).all Char.isDigit then some ((digitsToNat (c :: ds) : Int)) else none

/-- Python `s.isdigit()` (ASCII fragment). -/
def pyIsDigit (s : String) : Bool := !s.data.isEmpty && s.data.all Char.isDigit

/-- Python list indexing `l[i]`, including negative indices; `none` = `IndexError`. -/
def pyIndex (l : List String) (i : Int) : Option String :=
  if 0 ≤ i then
    if i < (l.length : Int) then l.get? i.toNat else none
  else
    if 0 ≤ (l.length : Int) + i then l.get? ((l.length : Int) + i).toNat else none

/-! ## Cron Synthesizer (`ai_service.build_cron_from_structured_data`) -/

/-- The `day_of_week` value of the recurrence dict: a single int or a list of ints. -/
inductive DayOfWeekValue where
  | int : Int → DayOfWeekValue
  | list : List Int → DayOfWeekValue
deriving DecidableEq

/-- The `"time"` sub-dict of the structured data; `none` = key missing. -/
structure TimeData where
  hour : Option Int
  minute : Option Int
deriving DecidableEq

/-- The `"recurrence"` sub-dict of the structured data; `none` = key missing. -/
structure RecurrenceData where
  type : Option String
  weekdays_only : Option Bool
  day_of_week : Option DayOfWeekValue
  day_of_month : Option Int
  month : Option Int
deriving DecidableEq

/-- The structured `parsed_data` dict handed to the synthesizer. -/
structure ParsedData where
  time : Option TimeData
  recurrence : Option RecurrenceData
deriving DecidableEq

/-- Python `",".join(str(d) for d in ds)`. -/
def joinComma : List Int → String
  | [] => ""
  | [d] => toString d
  | d :: ds => toString d ++ "," ++ joinComma ds

/-- Embedding of `ai_service.build_cron_from_structured_data`: builds a cron
expression from structured time and recurrence data; `Except.error` models the
`ValueError`s raised for an out-of-range hour/minute or a weekly recurrence
without `day_of_week`. -/
def build_cron_from_structured_data (parsed_data : ParsedData) : Except String String :=
  let time_data := parsed_data.time.getD ⟨none, none⟩
  let recurrence := parsed_data.recurrence.getD ⟨none, none, none, none, none⟩
  let minute := time_data.minute.getD 0
  let hour := time_data.hour.getD 8
  if ¬(0 ≤ hour ∧ hour ≤ 23) then
    Except.error ("Invalid hour: " ++ toString hour ++ ". Must be 0-23")
  else if ¬(0 ≤ minute ∧ minute ≤ 59) then
    Except.error ("Invalid minute: " ++ toString minute ++ ". Must be 0-59")
  else
    let rec_type := recurrence.type.getD "daily"
    if rec_type = "daily" then
      if recurrence.weekdays_only.getD false then
        Except.ok (toString minute ++ " " ++ toString hour ++ " * * 1-5")
      else
        Except.ok (toString minute ++ " " ++ toString hour ++ " * * *")
    else if rec_type = "weekly" then
      match recurrence.day_of_week with
      | none => Except.error "Weekly recurrence requires day_of_week"
      | some (DayOfWeekValue.list ds) =>
        Except.ok (toString minute ++ " " ++ toString hour ++ " * * " ++ joinComma ds)
      | some (DayOfWeekValue.int d) =>
        Except.ok (toString minute ++ " " ++ toString hour ++ " * * " ++ toString d)
    else if rec_type = "monthly" then
      let day_of_month := recurrence.day_of_month.getD 1
      Except.ok (toString minute ++ " " ++ toString hour ++ " " ++ toString day_of_month ++ " * *")
    else if rec_type = "yearly" then
      let day_of_month := recurrence.day_of_month.getD 1
      let month := recurrence.month.getD 1
      Except.ok (toString minute ++ " " ++ toString hour ++ " " ++ toString day_of_month
        ++ " " ++ toString month ++ " *")
    else if rec_type = "once" then
      Except.ok (toString minute ++ " " ++ toString hour ++ " * * *")
    else
      Except.ok (toString minute ++ " " ++ toString hour ++ " * * *")

/-! ## Recurrence Evaluator validity check

Modelled from the spec: the repository delegates cron validation to the external
`croniter` library (constructed in `ai_service.parse_natural_language_reminder` and
`validate_and_enhance_reminder`), which is not part of `src/`; §4.1 of the spec
specifies the check: a 5-field expression `minute hour day-of-month month day-of-week`,
each field `*`, a single integer, a comma-separated list, or a simple range `a-b`, with
minute∈[0,59], hour∈[0,23], day-of-month∈[1,31], month∈[1,12], day-of-week∈[0,6]. -/

/-- Decimal strings of the integers in `[lo, hi]`. -/
def numStrings (lo hi : Nat) : List String :=
  (List.range' lo (hi + 1 - lo)).map (fun n => toString n)

/-- Field is a single in-range integer (canonical decimal form). -/
def singleOk (lo hi : Nat) (s : String) : Bool := decide (s ∈ numStrings lo hi)

/-- Field is a simple range `a-b` of in-range integers. -/
def rangeOk (lo hi : Nat) (s : String) : Bool :=
  match (splitPAux (fun c => c = '-') s.data []).map String.mk with
  | [a, b] => singleOk lo hi a && singleOk lo hi b
  | _ => false

/-- Field is a comma-separated list of in-range integers. -/
def listOk (lo hi : Nat) (s : String) : Bool :=
  let ps := (splitPAux (fun c => c = ',') s.data []).map String.mk
  !ps.isEmpty && ps.all (singleOk lo hi)

/-- One cron field: `*`, a single integer, a range, or a comma list. -/
def fieldOk (lo hi : Nat) (s : String) : Bool :=
  decide (s = "*") || singleOk lo hi s || rangeOk lo hi s || listOk lo hi s

/-- Modelled from the spec: `Evaluator.validate` (§4.1), the validity check the
repository performs through `croniter(cron)`. -/
def validate (cron : String) : Bool :=
  match pysplit cron with
  | [m, h, d, mo, dw] =>
    fieldOk 0 59 m && fieldOk 0 23 h && fieldOk 1 31 d && fieldOk 1 12 mo && fieldOk 0 6 dw
  | _ => false

/-- Join character-list tokens with a separator character. -/
def joinSep (c0 : Char) : List (List Char) → List Char
  | [] => []
  | [t] => t
  | t :: ts => t ++ c0 :: joinSep c0 ts

/-- Recurrence fields (where present) lie in the cron field ranges:
`day_of_week` in `[0,6]` (a nonempty list for the list form), `day_of_month`
in `[1,31]`, `month` in `[1,12]`. -/
def RecurrenceInRange (p : ParsedData) : Prop :=
  (∀ d, (p.recurrence.getD ⟨none, none, none, none, none⟩).day_of_week
      = some (DayOfWeekValue.int d) → 0 ≤ d ∧ d ≤ 6)
  ∧ (∀ ds, (p.recurrence.getD ⟨none, none, none, none, none⟩).day_of_week
      = some (DayOfWeekValue.list ds) → ds ≠ [] ∧ ∀ d ∈ ds, 0 ≤ d ∧ d ≤ 6)
  ∧ (1 ≤ (p.recurrence.getD ⟨none, none, none, none, none⟩).day_of_month.getD 1
      ∧ (p.recurrence.getD ⟨none, none, none, none, none⟩).day_of_month.getD 1 ≤ 31)
  ∧ (1 ≤ (p.recurrence.getD ⟨none, none, none, none, none⟩).month.getD 1
      ∧ (p.recurrence.getD ⟨none, none, none, none, none⟩).month.getD 1 ≤ 12)

/-! ## Fire Executor (`scheduler_main.fire`) -/

/-- A delivery destination (`models.Channel`). -/
structure Channel where
  id : Int
  name : String
  ntfy_topic : String
  enabled : Bool
deriving DecidableEq

/-- A reminder row with its associated channels eagerly resolved (`models.Reminder`). -/
structure Reminder where
  id : Int
  title : String
  body : Option String
  cron : String
  timezone : Option String
  enabled : Bool
  channels : List Channel
deriving DecidableEq

/-- One `models.DeliveryLog` row as written by `fire` (`sent_at` is server-set). -/
structure DeliveryLog where
  reminder_id : Int
  channel_id : Option Int
  status : String
  detail : Option String
deriving DecidableEq

/-- One call to the delivery gateway, with the arguments `fire` passes. -/
structure SendCall where
  topic : String
  title : String
  body : String
deriving DecidableEq

/-- The fan-out loop of `fire`: for each channel, attempt the delivery
(`send` is the environment's outcome for a `send_ntfy` call) and append one
`DeliveryLog`; an exception is caught per channel and recorded as `error`. -/
def fan_out (send : String → String → String → Except String Unit)
    (reminder : Reminder) (reminder_id : Int) :
    List Channel → List SendCall × List DeliveryLog
  | [] => ([], [])
  | channel :: rest =>
    let call : SendCall := ⟨channel.ntfy_topic, reminder.title, reminder.body.getD ""⟩
    let log : DeliveryLog :=
      match send channel.ntfy_topic reminder.title (reminder.body.getD "") with
      | Except.ok _ => ⟨reminder.id, some channel.id, "sent", none⟩
      | Except.error exc => ⟨reminder_id, some channel.id, "error", some exc⟩
    let next := fan_out send reminder reminder_id rest
    (call :: next.1, log :: next.2)

/-- Embedding of `scheduler_main.fire`: re-fetch the reminder (`lookup` is
`db.get`), skip when missing/disabled/without (enabled) channels, otherwise
fan out to every enabled channel. Returns the delivery calls performed and
the `DeliveryLog` rows committed. -/
def fire (lookup : Int → Option Reminder)
    (send : String → String → String → Except String Unit)
    (reminder_id : Int) : List SendCall × List DeliveryLog :=
  match lookup reminder_id with
  | none => ([], [])
  | some reminder =>
    if reminder.enabled = false then ([], [])
    else if reminder.channels = [] then ([], [])
    else
      let enabled_channels := reminder.channels.filter (fun ch => ch.enabled)
      if enabled_channels = [] then ([], [])
      else fan_out send reminder reminder_id enabled_channels

/-! ## Schedule Registry and Reconciliation (`scheduler_main.register_all`) -/

/-- A registered trigger: the reminder's cron and the timezone name handed to
`CronTrigger.from_crontab` (the reminder's own timezone, default
`America/Vancouver`). -/
structure Trigger where
  cron : String
  timezone : String
deriving DecidableEq

/-- `scheduler.add_job(..., id=jobId, replace_existing=True)` on the registry. -/
def add_job (registry : List (String × Trigger)) (jobId : String) (t : Trigger) :
    List (String × Trigger) :=
  if registry.any (fun jt => jt.1 = jobId) then
    registry.map (fun jt => if jt.1 = jobId then (jobId, t) else jt)
  else registry ++ [(jobId, t)]

/-- Embedding of `scheduler_main.register_all`: clear all jobs
(`scheduler.remove_all_jobs()`), re-read the enabled reminders from the store,
and register one cron trigger per reminder keyed `rem-<id>`; a reminder whose
trigger construction fails (`CronTrigger.from_crontab`, modelled by the spec's
`validate`) is caught, logged and skipped. -/
def register_all (db : List Reminder) (_registry : List (String × Trigger)) :
    List (String × Trigger) :=
  let reminders := db.filter (fun r => r.enabled)
  reminders.foldl
    (fun reg r =>
      if validate r.cron then
        add_job reg ("rem-" ++ toString r.id) ⟨r.cron, r.timezone.getD "America/Vancouver"⟩
      else reg)
    []

/-! ## Delivery Gateway (`ntfy.send_ntfy`) -/

/-- Outcome of the underlying `httpx` POST: an HTTP response with some status
code, or a network-level failure (connection error, timeout, ...). -/
inductive PostResult where
  | response : Nat → PostResult
  | networkError : String → PostResult
deriving DecidableEq

/-- The timeout (seconds) `send_ntfy` passes to `httpx.AsyncClient`. -/
def send_ntfy_timeout : Nat := 10

/-- Embedding of `ntfy.send_ntfy`: `client.post` raises on a network failure,
but returns the response object for any HTTP status; the source performs no
status check (no `raise_for_status`), so every response — 2xx or not — yields
a normal return. -/
def send_ntfy (post : PostResult) : Except String Unit :=
  match post with
  | PostResult.networkError msg => Except.error msg
  | PostResult.response _ => Except.ok ()

/-! ## Validation and enhancement (`ai_service.validate_and_enhance_reminder`) -/

/-- The title handling of `validate_and_enhance_reminder` (lines 264-270):
`title = parsed_data.get("title", "").strip()`; raise if empty; if the
stripped title exceeds 120 characters store `title[:117] + "..."`; otherwise
the stored `parsed_data["title"]` is left as it was. -/
def validate_title (t : Option String) : Except String String :=
  let title := pystrip (t.getD "")
  if title = "" then Except.error "Title cannot be empty"
  else if 120 < title.length then
    Except.ok (String.mk (title.data.take 117) ++ "...")
  else Except.ok (t.getD "")

/-- The body handling of `validate_and_enhance_reminder` (lines 272-278):
only a truthy (non-empty, present) body is stripped and normalized; a
stripped-empty or `"none"`/`"null"`/`"n/a"` (case-insensitive) body becomes
`None`, anything else is stored stripped. -/
def clean_body (body : Option String) : Option String :=
  match body with
  | none => none
  | some b =>
    if b = "" then some b
    else
      let s := pystrip b
      if s = "" ∨ pylower s ∈ (["none", "null", "n/a"] : List String) then none
      else some s

/-! ## Human-readable schedule description (`ai_service.generate_cron_description`) -/

/-- The `days` list of `generate_cron_description`. -/
def daysNames : List String :=
  ["Sunday", "Monday", "Tuesday", "Wednesday", "Thursday", "Friday", "Saturday"]

/-- The `months` list of `generate_cron_description` (index 0 is the empty pad). -/
def monthNames : List String :=
  ["", "January", "February", "March", "April", "May", "June",
   "July", "August", "September", "October", "November", "December"]

/-- Zero-padded two-digit decimal. -/
def pad2 (n : Nat) : String := if n < 10 then "0" ++ toString n else toString n

/-- Python `time(h, m).strftime('%I:%M %p').lower()`. -/
def strftime_I_M_p (h m : Nat) : String :=
  (if h % 12 = 0 then pad2 12 else pad2 (h % 12)) ++ ":" ++ pad2 m ++ " "
    ++ (if h < 12 then "am" else "pm")

/-- Python `s.endswith(suffix)`. -/
def pyEndsWith (s suffix : String) : Bool := suffix.data.isSuffixOf s.data

/-- The ordinal-suffix expression of `generate_cron_description`
(`'st' if day.endswith('1') else ...`). -/
def ordinalSuffix (day : String) : String :=
  if pyEndsWith day "1" then "st"
  else if pyEndsWith day "2" then "nd"
  else if pyEndsWith day "3" then "rd"
  else "th"

/-- The `try` block of `generate_cron_description`; `none` models an exception
escaping to the `except` handler (a failed `int(...)`, an out-of-range
`time(...)`, or a list `IndexError`). The not-5-fields case is a normal
`return cron` inside the `try`. -/
def cron_description_attempt (cron : String) : Option String :=
  match pysplit cron with
  | [minute, hour, day, month, dow] => do
    let timeDesc ←
      if hour = "*" then some "every hour"
      else do
        let hourInt ← pyInt hour
        let minuteInt ← if minute = "*" then some (0 : Int) else pyInt minute
        if 0 ≤ hourInt ∧ hourInt ≤ 23 ∧ 0 ≤ minuteInt ∧ minuteInt ≤ 59 then
          some ("at " ++ strftime_I_M_p hourInt.toNat minuteInt.toNat)
        else none
    let freqDesc ←
      if day = "*" ∧ month = "*" ∧ dow = "*" then some "every day"
      else if day = "*" ∧ month = "*" ∧ dow = "1-5" then some "on weekdays"
      else if day = "*" ∧ month = "*" ∧ dow = "0,6" then some "on weekends"
      else if day = "*" ∧ month = "*" ∧ pyIsDigit dow = true then do
        let dowInt ← pyInt dow
        let name ← pyIndex daysNames dowInt
        some ("every " ++ name)
      else if day ≠ "*" ∧ month = "*" then
        some ("on the " ++ day ++ ordinalSuffix day ++ " of every month")
      else if day ≠ "*" ∧ month ≠ "*" then do
        let monthInt ← pyInt month
        let name ← pyIndex monthNames monthInt
        some ("on " ++ name ++ " " ++ day)
      else some "on a custom schedule"
    some (pystrip (freqDesc ++ " " ++ timeDesc))
  | _ => some cron

/-- Embedding of `ai_service.generate_cron_description`: the `except` handler
returns the raw cron string. -/
def generate_cron_description (cron : String) : String :=
  (cron_description_attempt cron).getD cron

theorem data_append (s t : String) : (s ++ t).data = s.data ++ t.data := rfl

/-! ## Split lemmas -/

theorem splitPAux_token (p : Char → Bool) (c0 : Char) (hc0 : p c0 = true) :
    ∀ (t : List Char) (rest acc : List Char),
      (∀ c ∈ t, p c = false) → (t ≠ [] ∨ acc ≠ []) →
      splitPAux p (t ++ c0 :: rest) acc = (acc.reverse ++ t) :: splitPAux p rest []
  | [], rest, acc, _, hne => by
    have hacc : acc ≠ [] := by
      rcases hne with h | h
      · exact absurd rfl h
      · exact h
    simp [splitPAux, hc0, List.isEmpty_iff, hacc]
  | c :: t', rest, acc, ht, _ => by
    have hc : p c = false := ht c (List.mem_cons_self c t')
    have ih := splitPAux_token p c0 hc0 t' rest (c :: acc)
      (fun x hx => ht x (List.mem_cons_of_mem _ hx)) (Or.inr (by simp))
    simp only [List.cons_append, splitPAux, hc, Bool.false_eq_true, if_false, List.append_eq]
    rw [ih]
    simp

theorem splitPAux_last (p : Char → Bool) :
    ∀ (t acc : List Char),
      (∀ c ∈ t, p c = false) → (t ≠ [] ∨ acc ≠ []) →
      splitPAux p t acc = [acc.reverse ++ t]
  | [], acc, _, hne => by
    have hacc : acc ≠ [] := by
      rcases hne with h | h
      · exact absurd rfl h
      · exact h
    simp [splitPAux, List.isEmpty_iff, hacc]
  | c :: t', acc, ht, _ => by
    have hc : p c = false := ht c (List.mem_cons_self c t')
    have ih := splitPAux_last p t' (c :: acc)
      (fun x hx => ht x (List.mem_cons_of_mem _ hx)) (Or.inr (by simp))
    simp only [splitPAux, hc, Bool.false_eq_true, if_false, List.append_eq]
    rw [ih]
    simp

example : build_cron_from_structured_data
    ⟨some ⟨some 20, some 15⟩, some ⟨some "daily", none, none, none, none⟩⟩
    = Except.ok "15 20 * * *" := by decide

example : build_cron_from_structured_data
    ⟨some ⟨some 9, some 30⟩, some ⟨some "daily", some true, none, none, none⟩⟩
    = Except.ok "30 9 * * 1-5" := by decide

example : build_cron_from_structured_data
    ⟨some ⟨some 14, some 0⟩, some ⟨some "weekly", none, some (DayOfWeekValue.int 0), none, none⟩⟩
    = Except.ok "0 14 * * 0" := by decide

example : build_cron_from_structured_data
    ⟨some ⟨some 8, some 0⟩, some ⟨some "yearly", none, none, some 12, some 10⟩⟩
    = Except.ok "0 8 12 10 *" := by decide

example : build_cron_from_structured_data
    ⟨some ⟨some 9, some 30⟩, some ⟨some "monthly", none, none, some 15, none⟩⟩
    = Except.ok "30 9 15 * *" := by decide

example : build_cron_from_structured_data
    ⟨some ⟨some 25, some 0⟩, some ⟨some "daily", none, none, none, none⟩⟩
    = Except.error "Invalid hour: 25. Must be 0-23" := by decide

example : build_cron_from_structured_data ⟨none, none⟩ = Except.ok "0 8 * * *" := by decide

example : build_cron_from_structured_data
    ⟨some ⟨some 14, some 0⟩,
      some ⟨some "weekly", none, some (DayOfWeekValue.list [1, 3, 5]), none, none⟩⟩
    = Except.ok "0 14 * * 1,3,5" := by decide

example : validate "15 20 * * *" = true := by decide

example : validate "30 9 * * 1-5" = true := by decide

example : validate "0 14 * * 1,3,5" = true := by decide

example : validate "0 8 12 10 *" = true := by decide

example : validate "0 8 40 * *" = false := by decide

example : validate "0 8 * *" = false := by decide

/-! ## Token lemmas for the round-trip proof -/

theorem int_toString_nonneg (i : Int) (h : 0 ≤ i) : toString i = toString i.toNat := by
  obtain ⟨n, rfl⟩ := Int.eq_ofNat_of_zero_le h
  rfl

theorem natRepr_facts :
    ∀ n : Nat, n < 60 →
      (toString n).data ≠ [] ∧ ∀ c ∈ (toString n).data, isWs c = false ∧ c ≠ ',' := by
  decide

theorem mem_numStrings (lo hi n : Nat) (h1 : lo ≤ n) (h2 : n ≤ hi) :
    toString n ∈ numStrings lo hi := by
  refine List.mem_map_of_mem _ ?_
  rw [List.mem_range'_1]
  omega

theorem singleOk_toString (lo hi n : Nat) (h1 : lo ≤ n) (h2 : n ≤ hi) :
    singleOk lo hi (toString n) = true :=
  decide_eq_true (mem_numStrings lo hi n h1 h2)

theorem splitPAux_joinSep (p : Char → Bool) (c0 : Char) (hc0 : p c0 = true) :
    ∀ ts : List (List Char), ts ≠ [] →
      (∀ t ∈ ts, t ≠ [] ∧ ∀ c ∈ t, p c = false) →
      splitPAux p (joinSep c0 ts) [] = ts
  | [], h, _ => absurd rfl h
  | [t], _, hts => by
    have ht := hts t (List.mem_cons_self t [])
    rw [joinSep, splitPAux_last p t [] ht.2 (Or.inl ht.1)]
    simp
  | t :: t' :: ts, _, hts => by
    have ht := hts t (List.mem_cons_self t (t' :: ts))
    have ih := splitPAux_joinSep p c0 hc0 (t' :: ts) (by simp)
      (fun x hx => hts x (List.mem_cons_of_mem _ hx))
    have hj : joinSep c0 (t :: t' :: ts) = t ++ c0 :: joinSep c0 (t' :: ts) := rfl
    rw [hj, splitPAux_token p c0 hc0 t (joinSep c0 (t' :: ts)) [] ht.2 (Or.inl ht.1), ih]
    simp

theorem mem_joinSep (c0 : Char) :
    ∀ (ts : List (List Char)) (c : Char), c ∈ joinSep c0 ts →
      c = c0 ∨ ∃ t ∈ ts, c ∈ t
  | [], c, h => by simp [joinSep] at h
  | [t], c, h => by
    rw [joinSep] at h
    exact Or.inr ⟨t, List.mem_cons_self t [], h⟩
  | t :: t' :: ts, c, h => by
    have hj : joinSep c0 (t :: t' :: ts) = t ++ c0 :: joinSep c0 (t' :: ts) := rfl
    rw [hj] at h
    rcases List.mem_append.mp h with h1 | h1
    · exact Or.inr ⟨t, List.mem_cons_self t _, h1⟩
    · rcases List.mem_cons.mp h1 with h2 | h2
      · exact Or.inl h2
      · rcases mem_joinSep c0 (t' :: ts) c h2 with h3 | ⟨u, hu, hcu⟩
        · exact Or.inl h3
        · exact Or.inr ⟨u, List.mem_cons_of_mem _ hu, hcu⟩

theorem joinComma_data :
    ∀ ds : List Int, ds ≠ [] →
      (joinComma ds).data = joinSep ',' (ds.map (fun d => (toString d).data))
  | [], h => absurd rfl h
  | [d], _ => rfl
  | d :: d' :: ds, _ => by
    have ih := joinComma_data (d' :: ds) (by simp)
    show (toString d ++ "," ++ joinComma (d' :: ds)).data = _
    rw [data_append, data_append, ih]
    simp [joinSep]

/-- Facts about a single weekday token `toString d` for `0 ≤ d ≤ 6`. -/
theorem dowToken_facts (d : Int) (h1 : 0 ≤ d) (h2 : d ≤ 6) :
    (toString d).data ≠ [] ∧ (∀ c ∈ (toString d).data, isWs c = false ∧ c ≠ ',')
      ∧ singleOk 0 6 (toString d) = true := by
  rw [int_toString_nonneg d h1]
  have hlt : d.toNat < 60 := by omega
  have hle : d.toNat ≤ 6 := by omega
  exact ⟨(natRepr_facts d.toNat hlt).1, (natRepr_facts d.toNat hlt).2,
    singleOk_toString 0 6 d.toNat (Nat.zero_le _) hle⟩

theorem joinComma_noWs (ds : List Int) (hne : ds ≠ [])
    (hd : ∀ d ∈ ds, 0 ≤ d ∧ d ≤ 6) :
    ∀ c ∈ (joinComma ds).data, isWs c = false := by
  intro c hc
  rw [joinComma_data ds hne] at hc
  rcases mem_joinSep ',' _ c hc with h | ⟨t, ht, hct⟩
  · subst h; decide
  · obtain ⟨d, hdmem, rfl⟩ := List.mem_map.mp ht
    exact ((dowToken_facts d (hd d hdmem).1 (hd d hdmem).2).2.1 c hct).1

theorem joinComma_ne_nil (ds : List Int) (hne : ds ≠ [])
    (hd : ∀ d ∈ ds, 0 ≤ d ∧ d ≤ 6) : (joinComma ds).data ≠ [] := by
  rw [joinComma_data ds hne]
  rcases ds with _ | ⟨d, ds⟩
  · exact absurd rfl hne
  · rcases ds with _ | ⟨d', ds⟩
    · exact (dowToken_facts d (hd d (by simp)).1 (hd d (by simp)).2).1
    · simp only [List.map, joinSep]
      intro h
      exact (dowToken_facts d (hd d (by simp)).1 (hd d (by simp)).2).1
        (List.append_eq_nil.mp h).1

theorem listOk_joinComma (ds : List Int) (hne : ds ≠ [])
    (hd : ∀ d ∈ ds, 0 ≤ d ∧ d ≤ 6) : listOk 0 6 (joinComma ds) = true := by
  have hsplit : splitPAux (fun c => c = ',') (joinComma ds).data []
      = ds.map (fun d => (toString d).data) := by
    rw [joinComma_data ds hne]
    refine splitPAux_joinSep _ ',' (by decide) _ (by simpa using hne) ?_
    intro t ht
    obtain ⟨d, hdmem, rfl⟩ := List.mem_map.mp ht
    have hf := dowToken_facts d (hd d hdmem).1 (hd d hdmem).2
    refine ⟨hf.1, fun c hc => ?_⟩
    exact decide_eq_false ((hf.2.1 c hc).2)
  simp only [listOk, hsplit, List.map_map, Bool.and_eq_true, Bool.not_eq_true',
    List.isEmpty_eq_false, List.all_eq_true]
  constructor
  · simpa using hne
  · intro s hs
    obtain ⟨d, hdmem, rfl⟩ := List.mem_map.mp hs
    have hf := dowToken_facts d (hd d hdmem).1 (hd d hdmem).2
    simpa using hf.2.2

theorem validate_of_split (cron m h d mo dw : String)
    (hs : pysplit cron = [m, h, d, mo, dw])
    (f1 : fieldOk 0 59 m = true) (f2 : fieldOk 0 23 h = true) (f3 : fieldOk 1 31 d = true)
    (f4 : fieldOk 1 12 mo = true) (f5 : fieldOk 0 6 dw = true) : validate cron = true := by
  simp [validate, hs, f1, f2, f3, f4, f5]

theorem pysplit_of_joinSep (cron : String) (ts : List String)
    (hdata : cron.data = joinSep ' ' (ts.map String.data)) (hne : ts ≠ [])
    (hts : ∀ t ∈ ts, t.data ≠ [] ∧ ∀ c ∈ t.data, isWs c = false) :
    pysplit cron = ts := by
  rw [pysplit, hdata, splitPAux_joinSep isWs ' ' (by decide) _ (by simpa using hne)]
  · rw [List.map_map]
    have hid : (String.mk ∘ String.data) = id := funext fun s => rfl
    rw [hid, List.map_id]
  · intro t ht
    obtain ⟨s, hs, rfl⟩ := List.mem_map.mp ht
    exact hts s hs

theorem fieldOk_star (lo hi : Nat) : fieldOk lo hi "*" = true := by simp [fieldOk]

theorem fieldOk_int (lo hi : Nat) (i : Int) (h1 : (lo : Int) ≤ i) (h2 : i ≤ (hi : Int))
    (hhi : hi < 60) : fieldOk lo hi (toString i) = true := by
  rw [int_toString_nonneg i (by omega)]
  simp [fieldOk, singleOk_toString lo hi i.toNat (by omega) (by omega)]

theorem fieldOk_joinComma (ds : List Int) (hne : ds ≠ [])
    (hd : ∀ d ∈ ds, 0 ≤ d ∧ d ≤ 6) : fieldOk 0 6 (joinComma ds) = true := by
  simp [fieldOk, listOk_joinComma ds hne hd]

theorem intToken_facts (i : Int) (h1 : 0 ≤ i) (h2 : i ≤ 59) :
    (toString i).data ≠ [] ∧ ∀ c ∈ (toString i).data, isWs c = false := by
  rw [int_toString_nonneg i h1]
  exact ⟨(natRepr_facts i.toNat (by omega)).1,
    fun c hc => ((natRepr_facts i.toNat (by omega)).2 c hc).1⟩

theorem star_data : ("*" : String).data = ['*'] := rfl

theorem starToken : ("*" : String).data ≠ [] ∧ ∀ c ∈ ("*" : String).data, isWs c = false := by
  decide

theorem validate_daily_pattern (m h : Int) (hm1 : 0 ≤ m) (hm2 : m ≤ 59)
    (hh1 : 0 ≤ h) (hh2 : h ≤ 23) :
    validate (toString m ++ " " ++ toString h ++ " * * *") = true := by
  refine validate_of_split _ (toString m) (toString h) "*" "*" "*" ?_
    (fieldOk_int 0 59 m (by omega) (by omega) (by omega))
    (fieldOk_int 0 23 h (by omega) (by omega) (by omega))
    (fieldOk_star 1 31) (fieldOk_star 1 12) (fieldOk_star 0 6)
  refine pysplit_of_joinSep _ _ ?_ (by simp) ?_
  · have e1 : (" * * *" : String).data = [' ', '*', ' ', '*', ' ', '*'] := rfl
    have e3 : (" " : String).data = [' '] := rfl
    simp [data_append, e1, e3, star_data, joinSep, List.append_assoc]
  · intro t ht
    simp only [List.mem_cons, List.not_mem_nil, or_false] at ht
    rcases ht with rfl | rfl | rfl | rfl | rfl
    · exact intToken_facts m hm1 hm2
    · exact intToken_facts h hh1 (by omega)
    · exact starToken
    · exact starToken
    · exact starToken

theorem validate_weekdays_pattern (m h : Int) (hm1 : 0 ≤ m) (hm2 : m ≤ 59)
    (hh1 : 0 ≤ h) (hh2 : h ≤ 23) :
    validate (toString m ++ " " ++ toString h ++ " * * 1-5") = true := by
  refine validate_of_split _ (toString m) (toString h) "*" "*" "1-5" ?_
    (fieldOk_int 0 59 m (by omega) (by omega) (by omega))
    (fieldOk_int 0 23 h (by omega) (by omega) (by omega))
    (fieldOk_star 1 31) (fieldOk_star 1 12) (by decide)
  refine pysplit_of_joinSep _ _ ?_ (by simp) ?_
  · have e1 : (" * * 1-5" : String).data = [' ', '*', ' ', '*', ' ', '1', '-', '5'] := rfl
    have e2 : ("1-5" : String).data = ['1', '-', '5'] := rfl
    have e3 : (" " : String).data = [' '] := rfl
    simp [data_append, e1, e2, e3, star_data, joinSep, List.append_assoc]
  · intro t ht
    simp only [List.mem_cons, List.not_mem_nil, or_false] at ht
    rcases ht with rfl | rfl | rfl | rfl | rfl
    · exact intToken_facts m hm1 hm2
    · exact intToken_facts h hh1 (by omega)
    · exact starToken
    · exact starToken
    · decide

theorem validate_weekly_int_pattern (m h d : Int) (hm1 : 0 ≤ m) (hm2 : m ≤ 59)
    (hh1 : 0 ≤ h) (hh2 : h ≤ 23) (hd1 : 0 ≤ d) (hd2 : d ≤ 6) :
    validate (toString m ++ " " ++ toString h ++ " * * " ++ toString d) = true := by
  refine validate_of_split _ (toString m) (toString h) "*" "*" (toString d) ?_
    (fieldOk_int 0 59 m (by omega) (by omega) (by omega))
    (fieldOk_int 0 23 h (by omega) (by omega) (by omega))
    (fieldOk_star 1 31) (fieldOk_star 1 12)
    (fieldOk_int 0 6 d (by omega) (by omega) (by omega))
  refine pysplit_of_joinSep _ _ ?_ (by simp) ?_
  · have e1 : (" * * " : String).data = [' ', '*', ' ', '*', ' '] := rfl
    have e3 : (" " : String).data = [' '] := rfl
    simp [data_append, e1, e3, star_data, joinSep, List.append_assoc]
  · intro t ht
    simp only [List.mem_cons, List.not_mem_nil, or_false] at ht
    rcases ht with rfl | rfl | rfl | rfl | rfl
    · exact intToken_facts m hm1 hm2
    · exact intToken_facts h hh1 (by omega)
    · exact starToken
    · exact starToken
    · exact intToken_facts d hd1 (by omega)

theorem validate_weekly_list_pattern (m h : Int) (ds : List Int) (hm1 : 0 ≤ m) (hm2 : m ≤ 59)
    (hh1 : 0 ≤ h) (hh2 : h ≤ 23) (hne : ds ≠ []) (hd : ∀ d ∈ ds, 0 ≤ d ∧ d ≤ 6) :
    validate (toString m ++ " " ++ toString h ++ " * * " ++ joinComma ds) = true := by
  refine validate_of_split _ (toString m) (toString h) "*" "*" (joinComma ds) ?_
    (fieldOk_int 0 59 m (by omega) (by omega) (by omega))
    (fieldOk_int 0 23 h (by omega) (by omega) (by omega))
    (fieldOk_star 1 31) (fieldOk_star 1 12)
    (fieldOk_joinComma ds hne hd)
  refine pysplit_of_joinSep _ _ ?_ (by simp) ?_
  · have e1 : (" * * " : String).data = [' ', '*', ' ', '*', ' '] := rfl
    have e3 : (" " : String).data = [' '] := rfl
    simp [data_append, e1, e3, star_data, joinSep, List.append_assoc]
  · intro t ht
    simp only [List.mem_cons, List.not_mem_nil, or_false] at ht
    rcases ht with rfl | rfl | rfl | rfl | rfl
    · exact intToken_facts m hm1 hm2
    · exact intToken_facts h hh1 (by omega)
    · exact starToken
    · exact starToken
    · exact ⟨joinComma_ne_nil ds hne hd, joinComma_noWs ds hne hd⟩

theorem validate_monthly_pattern (m h dom : Int) (hm1 : 0 ≤ m) (hm2 : m ≤ 59)
    (hh1 : 0 ≤ h) (hh2 : h ≤ 23) (hd1 : 1 ≤ dom) (hd2 : dom ≤ 31) :
    validate (toString m ++ " " ++ toString h ++ " " ++ toString dom ++ " * *") = true := by
  refine validate_of_split _ (toString m) (toString h) (toString dom) "*" "*" ?_
    (fieldOk_int 0 59 m (by omega) (by omega) (by omega))
    (fieldOk_int 0 23 h (by omega) (by omega) (by omega))
    (fieldOk_int 1 31 dom (by omega) (by omega) (by omega))
    (fieldOk_star 1 12) (fieldOk_star 0 6)
  refine pysplit_of_joinSep _ _ ?_ (by simp) ?_
  · have e1 : (" * *" : String).data = [' ', '*', ' ', '*'] := rfl
    have e3 : (" " : String).data = [' '] := rfl
    simp [data_append, e1, e3, star_data, joinSep, List.append_assoc]
  · intro t ht
    simp only [List.mem_cons, List.not_mem_nil, or_false] at ht
    rcases ht with rfl | rfl | rfl | rfl | rfl
    · exact intToken_facts m hm1 hm2
    · exact intToken_facts h hh1 (by omega)
    · exact intToken_facts dom (by omega) (by omega)
    · exact starToken
    · exact starToken

theorem validate_yearly_pattern (m h dom mo : Int) (hm1 : 0 ≤ m) (hm2 : m ≤ 59)
    (hh1 : 0 ≤ h) (hh2 : h ≤ 23) (hd1 : 1 ≤ dom) (hd2 : dom ≤ 31)
    (hmo1 : 1 ≤ mo) (hmo2 : mo ≤ 12) :
    validate (toString m ++ " " ++ toString h ++ " " ++ toString dom ++ " "
      ++ toString mo ++ " *") = true := by
  refine validate_of_split _ (toString m) (toString h) (toString dom) (toString mo) "*" ?_
    (fieldOk_int 0 59 m (by omega) (by omega) (by omega))
    (fieldOk_int 0 23 h (by omega) (by omega) (by omega))
    (fieldOk_int 1 31 dom (by omega) (by omega) (by omega))
    (fieldOk_int 1 12 mo (by omega) (by omega) (by omega))
    (fieldOk_star 0 6)
  refine pysplit_of_joinSep _ _ ?_ (by simp) ?_
  · have e1 : (" *" : String).data = [' ', '*'] := rfl
    have e3 : (" " : String).data = [' '] := rfl
    simp [data_append, e1, e3, star_data, joinSep, List.append_assoc]
  · intro t ht
    simp only [List.mem_cons, List.not_mem_nil, or_false] at ht
    rcases ht with rfl | rfl | rfl | rfl | rfl
    · exact intToken_facts m hm1 hm2
    · exact intToken_facts h hh1 (by omega)
    · exact intToken_facts dom (by omega) (by omega)
    · exact intToken_facts mo (by omega) (by omega)
    · exact starToken

theorem build_cron_round_trip_aux (p : ParsedData) (c : String)
    (hr : RecurrenceInRange p)
    (hb : build_cron_from_structured_data p = Except.ok c) :
    validate c = true := by
  obtain ⟨hdowi, hdowl, hdom, hmo⟩ := hr
  simp only [build_cron_from_structured_data] at hb
  split at hb
  next h1 => simp at hb
  next h1 =>
    split at hb
    next h2 => simp at hb
    next h2 =>
      rw [not_not] at h1 h2
      split at hb
      next hty =>
        split at hb
        next hw =>
          simp only [Except.ok.injEq] at hb
          subst hb
          exact validate_weekdays_pattern _ _ h2.1 h2.2 h1.1 h1.2
        next hw =>
          simp only [Except.ok.injEq] at hb
          subst hb
          exact validate_daily_pattern _ _ h2.1 h2.2 h1.1 h1.2
      next hty =>
        split at hb
        next hty2 =>
          split at hb
          next heq => simp at hb
          next ds heq =>
            simp only [Except.ok.injEq] at hb
            subst hb
            exact validate_weekly_list_pattern _ _ ds h2.1 h2.2 h1.1 h1.2
              (hdowl ds heq).1 (hdowl ds heq).2
          next d heq =>
            simp only [Except.ok.injEq] at hb
            subst hb
            exact validate_weekly_int_pattern _ _ d h2.1 h2.2 h1.1 h1.2
              (hdowi d heq).1 (hdowi d heq).2
        next hty2 =>
          split at hb
          next hty3 =>
            simp only [Except.ok.injEq] at hb
            subst hb
            exact validate_monthly_pattern _ _ _ h2.1 h2.2 h1.1 h1.2 hdom.1 hdom.2
          next hty3 =>
            split at hb
            next hty4 =>
              simp only [Except.ok.injEq] at hb
              subst hb
              exact validate_yearly_pattern _ _ _ _ h2.1 h2.2 h1.1 h1.2
                hdom.1 hdom.2 hmo.1 hmo.2
            next hty4 =>
              split at hb
              next hty5 =>
                simp only [Except.ok.injEq] at hb
                subst hb
                exact validate_daily_pattern _ _ h2.1 h2.2 h1.1 h1.2
              next hty5 =>
                simp only [Except.ok.injEq] at hb
                subst hb
                exact validate_daily_pattern _ _ h2.1 h2.2 h1.1 h1.2

theorem fan_out_eq_map (send : String → String → String → Except String Unit)
    (reminder : Reminder) (reminder_id : Int) :
    ∀ channels : List Channel,
      fan_out send reminder reminder_id channels
        = (channels.map (fun ch => ⟨ch.ntfy_topic, reminder.title, reminder.body.getD ""⟩),
           channels.map (fun ch =>
             match send ch.ntfy_topic reminder.title (reminder.body.getD "") with
             | Except.ok _ => ⟨reminder.id, some ch.id, "sent", none⟩
             | Except.error exc => ⟨reminder_id, some ch.id, "error", some exc⟩))
  | [] => rfl
  | channel :: rest => by
    rw [fan_out, fan_out_eq_map send reminder reminder_id rest]
    simp

example : validate_title (some "hello") = Except.ok "hello" := by decide

example : validate_title (some "   ") = Except.error "Title cannot be empty" := by decide

example : clean_body (some "  None ") = none := by decide

example : clean_body (some " x ") = some "x" := by decide

example : clean_body (some "") = some "" := by decide

example : generate_cron_description "0 8 * * *" = "every day at 08:00 am" := by decide

example : generate_cron_description "30 9 * * 1-5" = "on weekdays at 09:30 am" := by decide

example : generate_cron_description "0 14 * * 0" = "every Sunday at 02:00 pm" := by decide

example : generate_cron_description "15 20 * * *" = "every day at 08:15 pm" := by decide

example : generate_cron_description "0 8 15 * *"
    = "on the 15th of every month at 08:00 am" := by decide

example : generate_cron_description "0 8 12 10 *" = "on October 12 at 08:00 am" := by decide

example : generate_cron_description "0 0 * * 6" = "every Saturday at 12:00 am" := by decide

example : generate_cron_description "not a cron" = "not a cron" := by decide

example : generate_cron_description "a b * * *" = "a b * * *" := by decide

example : generate_cron_description "0 8 * 5 *" = "on a custom schedule at 08:00 am" := by
  decide

theorem attempt_of_not_five (cron : String) (h : (pysplit cron).length ≠ 5) :
    cron_description_attempt cron = some cron := by
  rcases hp : pysplit cron with _ | ⟨a, _ | ⟨b, _ | ⟨c, _ | ⟨d, _ | ⟨e, _ | ⟨f, rest⟩⟩⟩⟩⟩⟩
  · simp [cron_description_attempt, hp]
  · simp [cron_description_attempt, hp]
  · simp [cron_description_attempt, hp]
  · simp [cron_description_attempt, hp]
  · simp [cron_description_attempt, hp]
  · exact absurd (by rw [hp]; rfl) h
  · simp [cron_description_attempt, hp]

theorem attempt_none_of_bad_hour (cron m h d mo dw : String)
    (hp : pysplit cron = [m, h, d, mo, dw]) (hstar : h ≠ "*") (hint : pyInt h = none) :
    cron_description_attempt cron = none := by
  simp [cron_description_attempt, hp, hstar, hint]

/-! ## Claim theorems -/

/-- Claim C1: during a single fire event, for every list of enabled destinations
of the reminder, a send failure to one destination does not prevent delivery
attempts to the remaining destinations — one delivery call is made per enabled
channel regardless of other channels' outcomes — and exactly one `DeliveryLog`
is recorded per attempted destination: `sent` on success, `error` with the
captured exception detail on failure. -/
theorem fire_per_destination_outcomes
    (lookup : Int → Option Reminder) (send : String → String → String → Except String Unit)
    (rid : Int) (reminder : Reminder)
    (hget : lookup rid = some reminder) (hen : reminder.enabled = true)
    (hne : reminder.channels.filter (fun ch => ch.enabled) ≠ []) :
    fire lookup send rid
      = ((reminder.channels.filter (fun ch => ch.enabled)).map
           (fun ch => ⟨ch.ntfy_topic, reminder.title, reminder.body.getD ""⟩),
         (reminder.channels.filter (fun ch => ch.enabled)).map
           (fun ch =>
             match send ch.ntfy_topic reminder.title (reminder.body.getD "") with
             | Except.ok _ => ⟨reminder.id, some ch.id, "sent", none⟩
             | Except.error exc => ⟨rid, some ch.id, "error", some exc⟩)) := by
  have hch : reminder.channels ≠ [] := by
    intro h0
    apply hne
    rw [h0]
    rfl
  simp [fire, hget, hen, hch, hne, fan_out_eq_map]

/-- Witness for C1: two enabled channels, the first delivery raises; the second
is still attempted and both outcomes are recorded. -/
theorem fire_per_destination_outcomes_witness :
    fire
      (fun i => if i = 1 then
        some ⟨1, "T", none, "0 8 * * *", none, true,
          [⟨10, "A", "a", true⟩, ⟨11, "B", "b", true⟩]⟩
        else none)
      (fun topic _ _ => if topic = "a" then Except.error "boom" else Except.ok ())
      1
      = ([⟨"a", "T", ""⟩, ⟨"b", "T", ""⟩],
         [⟨1, some 10, "error", some "boom"⟩, ⟨1, some 11, "sent", none⟩]) := by
  have h := fire_per_destination_outcomes
    (fun i => if i = 1 then
      some ⟨1, "T", none, "0 8 * * *", none, true,
        [⟨10, "A", "a", true⟩, ⟨11, "B", "b", true⟩]⟩
      else none)
    (fun topic _ _ => if topic = "a" then Except.error "boom" else Except.ok ())
    1
    ⟨1, "T", none, "0 8 * * *", none, true, [⟨10, "A", "a", true⟩, ⟨11, "B", "b", true⟩]⟩
    (by decide) (by decide) (by decide)
  rw [h]
  decide

/-- Claim C2: a fire event whose re-fetched reminder is absent, disabled,
without channels, or without enabled channels performs zero delivery calls and
records zero `DeliveryLog` rows. -/
theorem fire_noop_cases
    (lookup : Int → Option Reminder) (send : String → String → String → Except String Unit)
    (rid : Int) :
    (lookup rid = none → fire lookup send rid = ([], []))
    ∧ (∀ r, lookup rid = some r → r.enabled = false → fire lookup send rid = ([], []))
    ∧ (∀ r, lookup rid = some r → r.channels = [] → fire lookup send rid = ([], []))
    ∧ (∀ r, lookup rid = some r → r.channels.filter (fun ch => ch.enabled) = [] →
        fire lookup send rid = ([], [])) := by
  refine ⟨?_, ?_, ?_, ?_⟩
  · intro h
    simp [fire, h]
  · intro r hr he
    simp [fire, hr, he]
  · intro r hr hc
    simp [fire, hr, hc]
  · intro r hr hf
    by_cases he : r.enabled = false
    · simp [fire, hr, he]
    · by_cases hc : r.channels = []
      · simp [fire, hr, hc]
      · simp [fire, hr, he, hc, hf]

/-- Witness for C2: the absent, disabled and no-enabled-channel cases each
yield no calls and no outcomes. -/
theorem fire_noop_cases_witness :
    fire (fun _ => none) (fun _ _ _ => Except.ok ()) 5 = ([], [])
    ∧ fire (fun _ => some ⟨2, "T", none, "c", none, false, [⟨1, "A", "a", true⟩]⟩)
        (fun _ _ _ => Except.ok ()) 2 = ([], [])
    ∧ fire (fun _ => some ⟨3, "T", none, "c", none, true, [⟨1, "A", "a", false⟩]⟩)
        (fun _ _ _ => Except.ok ()) 3 = ([], []) := by
  refine ⟨?_, ?_, ?_⟩
  · exact (fire_noop_cases (fun _ => none) (fun _ _ _ => Except.ok ()) 5).1 rfl
  · exact (fire_noop_cases (fun _ => some ⟨2, "T", none, "c", none, false, [⟨1, "A", "a", true⟩]⟩)
      (fun _ _ _ => Except.ok ()) 2).2.1 _ rfl rfl
  · exact (fire_noop_cases (fun _ => some ⟨3, "T", none, "c", none, true, [⟨1, "A", "a", false⟩]⟩)
      (fun _ _ _ => Except.ok ()) 3).2.2.2 _ rfl (by decide)

/-- Claim C3: for every hour in [0,23], minute in [0,59] and every recurrence
kind, `build_cron_from_structured_data` returns exactly the literal §4.2 table
pattern: daily `m h * * *`, daily+weekdaysOnly `m h * * 1-5`, weekly
`m h * * <dow>` (single int or comma-joined list), monthly `m h <dom> * *`
with `dayOfMonth` defaulting to 1, yearly `m h <dom> <month> *`, and both
`once` and any unknown kind the daily pattern. -/
theorem build_cron_matches_table (hour minute : Int)
    (hh : 0 ≤ hour ∧ hour ≤ 23) (hm : 0 ≤ minute ∧ minute ≤ 59) :
    (∀ w rdw rdm rmo, w.getD false = false →
      build_cron_from_structured_data
        ⟨some ⟨some hour, some minute⟩, some ⟨some "daily", w, rdw, rdm, rmo⟩⟩
        = Except.ok (toString minute ++ " " ++ toString hour ++ " * * *"))
    ∧ (∀ w rdw rdm rmo, w.getD false = true →
      build_cron_from_structured_data
        ⟨some ⟨some hour, some minute⟩, some ⟨some "daily", w, rdw, rdm, rmo⟩⟩
        = Except.ok (toString minute ++ " " ++ toString hour ++ " * * 1-5"))
    ∧ (∀ w d rdm rmo,
      build_cron_from_structured_data
        ⟨some ⟨some hour, some minute⟩,
          some ⟨some "weekly", w, some (DayOfWeekValue.int d), rdm, rmo⟩⟩
        = Except.ok (toString minute ++ " " ++ toString hour ++ " * * " ++ toString d))
    ∧ (∀ w ds rdm rmo,
      build_cron_from_structured_data
        ⟨some ⟨some hour, some minute⟩,
          some ⟨some "weekly", w, some (DayOfWeekValue.list ds), rdm, rmo⟩⟩
        = Except.ok (toString minute ++ " " ++ toString hour ++ " * * " ++ joinComma ds))
    ∧ (∀ w rdw rdm rmo,
      build_cron_from_structured_data
        ⟨some ⟨some hour, some minute⟩, some ⟨some "monthly", w, rdw, rdm, rmo⟩⟩
        = Except.ok (toString minute ++ " " ++ toString hour ++ " "
            ++ toString (rdm.getD 1) ++ " * *"))
    ∧ (∀ w rdw rdm rmo,
      build_cron_from_structured_data
        ⟨some ⟨some hour, some minute⟩, some ⟨some "yearly", w, rdw, rdm, rmo⟩⟩
        = Except.ok (toString minute ++ " " ++ toString hour ++ " "
            ++ toString (rdm.getD 1) ++ " " ++ toString (rmo.getD 1) ++ " *"))
    ∧ (∀ w rdw rdm rmo,
      build_cron_from_structured_data
        ⟨some ⟨some hour, some minute⟩, some ⟨some "once", w, rdw, rdm, rmo⟩⟩
        = Except.ok (toString minute ++ " " ++ toString hour ++ " * * *"))
    ∧ (∀ k w rdw rdm rmo,
        k ∉ (["daily", "weekly", "monthly", "yearly", "once"] : List String) →
      build_cron_from_structured_data
        ⟨some ⟨some hour, some minute⟩, some ⟨some k, w, rdw, rdm, rmo⟩⟩
        = Except.ok (toString minute ++ " " ++ toString hour ++ " * * *")) := by
  obtain ⟨hh1, hh2⟩ := hh
  obtain ⟨hm1, hm2⟩ := hm
  refine ⟨?_, ?_, ?_, ?_, ?_, ?_, ?_, ?_⟩
  · intro w rdw rdm rmo hw
    simp [build_cron_from_structured_data, hh1, hh2, hm1, hm2, hw]
  · intro w rdw rdm rmo hw
    simp [build_cron_from_structured_data, hh1, hh2, hm1, hm2, hw]
  · intro w d rdm rmo
    simp [build_cron_from_structured_data, hh1, hh2, hm1, hm2]
  · intro w ds rdm rmo
    simp [build_cron_from_structured_data, hh1, hh2, hm1, hm2]
  · intro w rdw rdm rmo
    simp [build_cron_from_structured_data, hh1, hh2, hm1, hm2]
  · intro w rdw rdm rmo
    simp [build_cron_from_structured_data, hh1, hh2, hm1, hm2]
  · intro w rdw rdm rmo
    simp [build_cron_from_structured_data, hh1, hh2, hm1, hm2]
  · intro k w rdw rdm rmo hk
    simp only [List.mem_cons, List.not_mem_nil, or_false, not_or] at hk
    obtain ⟨k1, k2, k3, k4, k5⟩ := hk
    simp [build_cron_from_structured_data, hh1, hh2, hm1, hm2, k1, k2, k3, k4, k5]

/-- Witness for C3: the 20:15 daily example from §8 of the spec. -/
theorem build_cron_matches_table_witness :
    build_cron_from_structured_data
      ⟨some ⟨some 20, some 15⟩, some ⟨some "daily", none, none, none, none⟩⟩
      = Except.ok "15 20 * * *" := by
  have h := (build_cron_matches_table 20 15 (by decide) (by decide)).1 none none none none rfl
  rw [h]
  decide

/-- Claim C4 counterexample: the synthesizer succeeds on a monthly recurrence
with `day_of_month = 40` (it never range-checks the recurrence fields), yet the
resulting cron string fails the validity check — so "every string produced by
build is accepted by validate" is false as stated. -/
theorem build_cron_round_trip_counterexample :
    build_cron_from_structured_data
      ⟨some ⟨some 8, some 0⟩, some ⟨some "monthly", none, none, some 40, none⟩⟩
      = Except.ok "0 8 40 * *"
    ∧ validate "0 8 40 * *" = false := by decide

/-- Claim C4 (amended): for every structured input whose recurrence fields,
where used, lie in the cron field ranges (day-of-week in [0,6], a nonempty
list for the list form, day-of-month in [1,31], month in [1,12]), every cron
string the synthesizer returns is accepted by the validity check. -/
theorem build_cron_round_trip_in_range (p : ParsedData) (c : String)
    (hr : RecurrenceInRange p)
    (hb : build_cron_from_structured_data p = Except.ok c) :
    validate c = true :=
  build_cron_round_trip_aux p c hr hb

/-- Witness for C4 (amended): a weekly list recurrence round-trips. -/
theorem build_cron_round_trip_in_range_witness :
    validate "0 14 * * 1,3,5" = true := by
  refine build_cron_round_trip_in_range
    ⟨some ⟨some 14, some 0⟩, some ⟨some "weekly", none,
      some (DayOfWeekValue.list [1, 3, 5]), none, none⟩⟩
    "0 14 * * 1,3,5" ?_ (by decide)
  unfold RecurrenceInRange
  refine ⟨fun d h => by simp at h, fun ds h => ?_, by decide, by decide⟩
  simp only [Option.getD, Option.some.injEq, DayOfWeekValue.list.injEq] at h
  subst h
  exact ⟨by decide, by decide⟩

/-- Claim C5 counterexample: a non-2xx response (HTTP 500 or 404) does not make
`send_ntfy` fail — the source never checks the response status — contradicting
"fails with a transport error whenever the push endpoint returns a non-2xx
response". -/
theorem send_ntfy_non2xx_counterexample :
    send_ntfy (PostResult.response 500) = Except.ok ()
    ∧ send_ntfy (PostResult.response 404) = Except.ok () := by decide

/-- Claim C5 (amended): `send_ntfy` fails with a transport error exactly on a
network-level failure (connection error/timeout); any HTTP response — 2xx or
not — returns normally; the call carries a bounded timeout of 10 seconds. -/
theorem send_ntfy_transport_behavior :
    (∀ msg, send_ntfy (PostResult.networkError msg) = Except.error msg)
    ∧ (∀ status, send_ntfy (PostResult.response status) = Except.ok ())
    ∧ send_ntfy_timeout = 10 :=
  ⟨fun _ => rfl, fun _ => rfl, rfl⟩

/-- Claim C6: reconciliation is idempotent — running `register_all` twice in
succession with an unchanged store yields a registry state identical to running
it once (the pass clears the registry and rebuilds it purely from the store). -/
theorem register_all_idempotent (db : List Reminder) (registry : List (String × Trigger)) :
    register_all db (register_all db registry) = register_all db registry := rfl

/-- Claim C7 counterexample: a 122-character title made of 121 spaces and one
letter is returned unchanged (its stripped form is 1 character, so the clamp
does not fire), so the returned title is not always at most 120 characters. -/
theorem validate_title_counterexample :
    validate_title (some (String.mk (List.replicate 121 ' ' ++ ['x'])))
      = Except.ok (String.mk (List.replicate 121 ' ' ++ ['x']))
    ∧ 120 < (String.mk (List.replicate 121 ' ' ++ ['x'])).length := by decide

/-- Claim C7 (amended): the length clamp applies to the stripped title: when
the stripped title exceeds 120 characters the result is its first 117
characters plus `"..."` (exactly 120 characters); otherwise the title is
returned unchanged — which can exceed 120 characters when the excess is
leading/trailing whitespace. -/
theorem validate_title_stripped_clamp (t : String) (hne : pystrip t ≠ "") :
    (120 < (pystrip t).length →
      validate_title (some t) = Except.ok (String.mk ((pystrip t).data.take 117) ++ "...")
      ∧ (String.mk ((pystrip t).data.take 117) ++ "...").length = 120)
    ∧ ((pystrip t).length ≤ 120 → validate_title (some t) = Except.ok t) := by
  constructor
  · intro hlen
    constructor
    · simp [validate_title, hne, hlen]
    · have e3 : ("..." : String).data = ['.', '.', '.'] := rfl
      show ((String.mk ((pystrip t).data.take 117) ++ "...").data).length = 120
      rw [data_append, e3]
      have hlen' : 120 < (pystrip t).data.length := hlen
      simp [List.length_take]
      omega
  · intro hlen
    have hle : ¬120 < (pystrip t).length := Nat.not_lt.mpr hlen
    simp [validate_title, hne, hle]

/-- Witness for C7 (amended): a short title is returned unchanged. -/
theorem validate_title_stripped_clamp_witness :
    validate_title (some "hi") = Except.ok "hi" := by
  have h := validate_title_stripped_clamp "hi" (by decide)
  exact h.2 (by decide)

/-- Claim C8 counterexample: an empty-string body is *not* normalized to
absent — the truthiness guard skips the cleanup block, so `""` stays `""`. -/
theorem clean_body_counterexample :
    clean_body (some "") = some "" ∧ clean_body (some "") ≠ none := by decide

/-- Claim C8 (amended): a non-empty body that strips to empty or whose
stripped lowercase form is `"none"`, `"null"` or `"n/a"` is normalized to
absent; other non-empty bodies are stored stripped; an empty-string body is
left as the empty string and an absent body stays absent. -/
theorem clean_body_normalization (b : String) (hne : b ≠ "") :
    (pystrip b = "" ∨ pylower (pystrip b) ∈ (["none", "null", "n/a"] : List String) →
      clean_body (some b) = none)
    ∧ (pystrip b ≠ "" → pylower (pystrip b) ∉ (["none", "null", "n/a"] : List String) →
      clean_body (some b) = some (pystrip b))
    ∧ clean_body none = none := by
  refine ⟨?_, ?_, rfl⟩
  · intro h
    simp only [clean_body]
    rw [if_neg hne, if_pos h]
  · intro h1 h2
    simp only [clean_body]
    rw [if_neg hne, if_neg (not_or.mpr ⟨h1, h2⟩)]

/-- Witness for C8 (amended): a whitespace-only body becomes absent. -/
theorem clean_body_normalization_witness :
    clean_body (some "  ") = none := by
  have h := clean_body_normalization "  " (by decide)
  exact h.1 (Or.inl (by decide))

/-- Claim C9 counterexample: the cron `"0 8 * 5 *"` (a month constraint with
`day = *`) matches none of the recognized shapes, yet the function returns
`"on a custom schedule at 08:00 am"`, not the raw cron string. -/
theorem generate_cron_description_counterexample :
    generate_cron_description "0 8 * 5 *" = "on a custom schedule at 08:00 am"
    ∧ generate_cron_description "0 8 * 5 *" ≠ "0 8 * 5 *" := by decide

/-- Claim C9 (amended): the raw cron string is returned when the expression
does not split into exactly five fields, or when evaluating the description
raises (e.g. a non-integer hour field); an unrecognized five-field shape that
evaluates cleanly instead yields a generated description such as
`"on a custom schedule at <time>"`. -/
theorem generate_cron_description_fallback (cron : String) :
    ((pysplit cron).length ≠ 5 → generate_cron_description cron = cron)
    ∧ (∀ m h d mo dw, pysplit cron = [m, h, d, mo, dw] → h ≠ "*" → pyInt h = none →
        generate_cron_description cron = cron) := by
  constructor
  · intro h5
    rw [generate_cron_description, attempt_of_not_five cron h5]
    rfl
  · intro m h d mo dw hp hstar hint
    rw [generate_cron_description, attempt_none_of_bad_hour cron m h d mo dw hp hstar hint]
    rfl

/-- Witness for C9 (amended): a three-field string and a five-field string with
a non-integer hour are both returned unchanged. -/
theorem generate_cron_description_fallback_witness :
    generate_cron_description "1 2 3" = "1 2 3"
    ∧ generate_cron_description "a b * * *" = "a b * * *" := by
  constructor
  · exact (generate_cron_description_fallback "1 2 3").1 (by decide)
  · exact (generate_cron_description_fallback "a b * * *").2 "a" "b" "*" "*" "*"
      (by decide) (by decide) (by decide)

/-- Claim C10: missing structured fields do not make the synthesizer fail but
take defaults: missing minute → 0, missing hour → 8, missing recurrence type →
"daily", missing monthly `day_of_month` → 1, missing yearly `month` → 1 (and a
wholly missing time/recurrence dict behaves as an empty one). -/
theorem build_cron_defaults :
    (∀ r, build_cron_from_structured_data ⟨none, r⟩
      = build_cron_from_structured_data ⟨some ⟨none, none⟩, r⟩)
    ∧ (∀ t, build_cron_from_structured_data ⟨t, none⟩
      = build_cron_from_structured_data ⟨t, some ⟨none, none, none, none, none⟩⟩)
    ∧ (∀ h r, build_cron_from_structured_data ⟨some ⟨h, none⟩, r⟩
      = build_cron_from_structured_data ⟨some ⟨h, some 0⟩, r⟩)
    ∧ (∀ m r, build_cron_from_structured_data ⟨some ⟨none, m⟩, r⟩
      = build_cron_from_structured_data ⟨some ⟨some 8, m⟩, r⟩)
    ∧ (∀ t w dw dm mo, build_cron_from_structured_data ⟨t, some ⟨none, w, dw, dm, mo⟩⟩
      = build_cron_from_structured_data ⟨t, some ⟨some "daily", w, dw, dm, mo⟩⟩)
    ∧ (∀ t w dw mo, build_cron_from_structured_data ⟨t, some ⟨some "monthly", w, dw, none, mo⟩⟩
      = build_cron_from_structured_data ⟨t, some ⟨some "monthly", w, dw, some 1, mo⟩⟩)
    ∧ (∀ t w dw dm, build_cron_from_structured_data ⟨t, some ⟨some "yearly", w, dw, dm, none⟩⟩
      = build_cron_from_structured_data ⟨t, some ⟨some "yearly", w, dw, dm, some 1⟩⟩)
    ∧ build_cron_from_structured_data ⟨none, none⟩ = Except.ok "0 8 * * *" :=
  ⟨fun _ => rfl, fun _ => rfl, fun _ _ => rfl, fun _ _ => rfl, fun _ _ _ _ _ => rfl,
   fun _ _ _ _ => rfl, fun _ _ _ _ => rfl, by decide⟩

end NotificationApp

